import Mathlib

/-
Shallow embedding of `driver/registry_default.go` (ory/kratos fork): the
registry composition root, its lazily memoized component getters, the
strategy-set filtering, the cookie-store construction, the DSN dispatch
predicate `CanHandle`, and the persistence bootstrap `Init` with its
backoff retry loop.

Go's mutable receiver methods become pure functions `RegistryDefault →
Component × RegistryDefault` (the returned registry is the possibly
updated receiver state).  External collaborators are modelled by the
values they hand the registry: the configuration provider is a snapshot
of the values its getters return, the database environment is an oracle
saying which bootstrap step of each attempt succeeds.
-/

namespace Kratos

/-- One self-service strategy as the dispatcher sees it: its mechanism
identifier (`s.ID()`) and, for each capability interface the dispatcher
queries with a Go type assertion (`strategy.(registration.Strategy)` etc.),
whether this strategy implements it.  The concrete strategy constructors
(`password2.NewStrategy`, `oidc.NewStrategy`, `profile.NewStrategy`,
`link.NewStrategy`) live outside the embedded file, so the registered list
is carried abstractly in the registry state. -/
structure Strategy where
  id : String
  hasRegistration : Bool
  hasLogin : Bool
  hasVerification : Bool
deriving DecidableEq, Repr

/-- The `config.SelfServiceStrategy` record: only its `Enabled` field is read
by the registry. -/
structure SelfServiceStrategyConfig where
  Enabled : Bool
deriving DecidableEq, Repr

/-- A snapshot of the configuration provider `config.Provider`: one field per
getter the embedded registry code calls.  Administrative enablement is the
set of enabled mechanism identifiers; durations are in nanoseconds as Go's
`time.Duration`. -/
structure Config where
  enabledStrategies : List String
  DSN : String
  SecretsSession : List String
  IsInsecureDevMode : Bool
  SessionDomain : String
  SessionPath : String
  SessionSameSiteMode : Nat
  SessionPersistentCookie : Bool
  SessionLifespanNs : Nat
deriving DecidableEq, Repr

/-- `m.c.SelfServiceStrategy(id).Enabled`: whether mechanism `id` is
administratively enabled in the current configuration snapshot. -/
def Config.SelfServiceStrategy (c : Config) (id : String) : SelfServiceStrategyConfig :=
  { Enabled := c.enabledStrategies.contains id }

/-- `int(m.c.SessionLifespan().Seconds())`: the configured session lifespan in
whole seconds (Go `time.Duration` counts nanoseconds and the `int` conversion
truncates). -/
def Config.SessionLifespanSeconds (c : Config) : Int :=
  Int.ofNat (c.SessionLifespanNs / 1000000000)

/-- Options of a gorilla `sessions.CookieStore` (the fields the registry
touches).  `sameSite` is Go's `http.SameSite` integer, 0 meaning unset. -/
structure CookieOptions where
  path : String
  domain : String
  maxAge : Int
  secure : Bool
  httpOnly : Bool
  sameSite : Nat
deriving DecidableEq, Repr

/-- A gorilla `sessions.CookieStore`: the key pairs it was created from and
its `Options`. -/
structure CookieStore where
  keyPairs : List String
  options : CookieOptions
deriving DecidableEq, Repr

/-- gorilla/sessions `NewCookieStore(keyPairs...)`: the library initializes
`Options` to `Path: "/", MaxAge: 86400 * 30` (thirty days), every other
option at its zero value. -/
def NewCookieStore (keyPairs : List String) : CookieStore :=
  { keyPairs := keyPairs
    options :=
      { path := "/", domain := "", maxAge := 86400 * 30
        secure := false, httpOnly := false, sameSite := 0 } }

/-- Go `net/http`'s `http.SameSiteLaxMode` constant. -/
def SameSiteLaxMode : Nat := 2

/-- The `persistence/sql` persister built by `sql.NewPersister`: the identity
of the underlying connection and whether `MigrateUp` has been applied to it. -/
structure SqlPersister where
  conn : Nat
  migratedUp : Bool
deriving DecidableEq, Repr

/-- `session.NewManagerHTTP(m)`. -/
inductive ManagerHTTP
  | new
deriving DecidableEq, Repr

/-- `continuity.NewManagerCookie(m)`. -/
inductive ManagerCookie
  | new
deriving DecidableEq, Repr

/-- `logout.NewHandler(m, m.c)`. -/
inductive LogoutHandlerCmp
  | new
deriving DecidableEq, Repr

/-- `courier.NewSMTP(m, m.c)`: captures the configuration passed at
construction time. -/
structure SMTPCourier where
  cfg : Config
deriving DecidableEq, Repr

/-- The fields of `RegistryDefault` that the embedded getters read or write:
the configuration, the registered strategy list, the memoized filtered
strategy sets, the memoized components and the persister. -/
structure RegistryDefault where
  c : Config
  selfserviceStrategies : List Strategy
  registrationStrategies : List Strategy
  loginStrategies : List Strategy
  verificationStrategies : List Strategy
  sessionsStore : Option CookieStore
  sessionManager : Option ManagerHTTP
  continuityManager : Option ManagerCookie
  selfserviceLogoutHandler : Option LogoutHandlerCmp
  courier : Option SMTPCourier
  persister : Option SqlPersister
deriving DecidableEq, Repr

/-- `NewRegistryDefault()` followed by `WithConfig(c)`: every lazily built
field at its zero value; `ss` is the strategy list that
`m.selfServiceStrategies()` registers on first use. -/
def NewRegistryDefault (c : Config) (ss : List Strategy) : RegistryDefault :=
  { c := c
    selfserviceStrategies := ss
    registrationStrategies := []
    loginStrategies := []
    verificationStrategies := []
    sessionsStore := none
    sessionManager := none
    continuityManager := none
    selfserviceLogoutHandler := none
    courier := none
    persister := none }

/-- `m.selfServiceStrategies()`: the registered strategy list (its lazy
construction builds a fixed list, carried here in the state). -/
def selfServiceStrategies (m : RegistryDefault) : List Strategy :=
  m.selfserviceStrategies

/-- `m.RegistrationStrategies()`: when the memoized set is empty, every
registered strategy that asserts to `registration.Strategy` and whose
mechanism is enabled in configuration is appended; the (possibly just
filled) memoized set is returned. -/
def RegistrationStrategies (m : RegistryDefault) : List Strategy × RegistryDefault :=
  if m.registrationStrategies.isEmpty then
    let built := (selfServiceStrategies m).filter fun s =>
      s.hasRegistration && (Config.SelfServiceStrategy m.c s.id).Enabled
    (built, { m with registrationStrategies := built })
  else
    (m.registrationStrategies, m)

/-- `m.LoginStrategies()`: same shape as `RegistrationStrategies`, against the
`login.Strategy` capability. -/
def LoginStrategies (m : RegistryDefault) : List Strategy × RegistryDefault :=
  if m.loginStrategies.isEmpty then
    let built := (selfServiceStrategies m).filter fun s =>
      s.hasLogin && (Config.SelfServiceStrategy m.c s.id).Enabled
    (built, { m with loginStrategies := built })
  else
    (m.loginStrategies, m)

/-- `m.VerificationStrategies()`: filters by the `verification.Strategy`
capability only; no configuration enablement check appears in the source. -/
def VerificationStrategies (m : RegistryDefault) : List Strategy × RegistryDefault :=
  if m.verificationStrategies.isEmpty then
    let built := (selfServiceStrategies m).filter fun s => s.hasVerification
    (built, { m with verificationStrategies := built })
  else
    (m.verificationStrategies, m)

/-- The store `m.CookieManager()` builds on first call: gorilla defaults,
then secure unless dev mode, HTTP-only, domain/path/same-site only when the
configured value is non-empty/non-zero, and max-age 0 overridden by the
lifespan in seconds when persistent session cookies are enabled. -/
def buildSessionsStore (c : Config) : CookieStore :=
  let cs := NewCookieStore c.SecretsSession
  let o := cs.options
  let o := { o with secure := !c.IsInsecureDevMode }
  let o := { o with httpOnly := true }
  let o := if c.SessionDomain ≠ "" then { o with domain := c.SessionDomain } else o
  let o := if c.SessionPath ≠ "" then { o with path := c.SessionPath } else o
  let o := if c.SessionSameSiteMode ≠ 0 then { o with sameSite := c.SessionSameSiteMode } else o
  let o := { o with maxAge := 0 }
  let o := if c.SessionPersistentCookie then { o with maxAge := c.SessionLifespanSeconds } else o
  { cs with options := o }

/-- `m.CookieManager()`: builds the session cookie store once and memoizes it
in `m.sessionsStore`. -/
def CookieManager (m : RegistryDefault) : CookieStore × RegistryDefault :=
  match m.sessionsStore with
  | some cs => (cs, m)
  | none =>
    let cs := buildSessionsStore m.c
    (cs, { m with sessionsStore := some cs })

/-- `m.ContinuityCookieManager(ctx)`: to support hot reloading this store is
not memoized; a fresh store is built from the current configuration on every
call (secure unless dev mode, HTTP-only, same-site-lax; no max-age is
assigned, so the gorilla default stands). -/
def ContinuityCookieManager (m : RegistryDefault) : CookieStore :=
  let cs := NewCookieStore m.c.SecretsSession
  let o := cs.options
  let o := { o with secure := !m.c.IsInsecureDevMode }
  let o := { o with httpOnly := true }
  let o := { o with sameSite := SameSiteLaxMode }
  { cs with options := o }

/-- `m.SessionManager()`: memoized `session.NewManagerHTTP(m)`. -/
def SessionManager (m : RegistryDefault) : ManagerHTTP × RegistryDefault :=
  match m.sessionManager with
  | some sm => (sm, m)
  | none =>
    let sm := ManagerHTTP.new
    (sm, { m with sessionManager := some sm })

/-- `m.ContinuityManager()`: memoized `continuity.NewManagerCookie(m)`. -/
def ContinuityManager (m : RegistryDefault) : ManagerCookie × RegistryDefault :=
  match m.continuityManager with
  | some cm => (cm, m)
  | none =>
    let cm := ManagerCookie.new
    (cm, { m with continuityManager := some cm })

/-- `m.LogoutHandler()`: memoized `logout.NewHandler(m, m.c)`. -/
def LogoutHandler (m : RegistryDefault) : LogoutHandlerCmp × RegistryDefault :=
  match m.selfserviceLogoutHandler with
  | some h => (h, m)
  | none =>
    let h := LogoutHandlerCmp.new
    (h, { m with selfserviceLogoutHandler := some h })

/-- `m.Courier()`: memoized `courier.NewSMTP(m, m.c)`. -/
def Courier (m : RegistryDefault) : SMTPCourier × RegistryDefault :=
  match m.courier with
  | some co => (co, m)
  | none =>
    let co := SMTPCourier.mk m.c
    (co, { m with courier := some co })

/-- `m.CanHandle(dsn)`: whether this registry takes responsibility for the
DSN, by the special in-memory value or by scheme prefix. -/
def CanHandle (dsn : String) : Bool :=
  dsn == "memory" ||
  String.isPrefixOf "mysql" dsn ||
  String.isPrefixOf "sqlite" dsn ||
  String.isPrefixOf "sqlite3" dsn ||
  String.isPrefixOf "postgres" dsn ||
  String.isPrefixOf "postgresql" dsn ||
  String.isPrefixOf "cockroach" dsn ||
  String.isPrefixOf "cockroachdb" dsn ||
  String.isPrefixOf "crdb" dsn

/-- `dbal.InMemoryDSN` from ory/x. -/
def InMemoryDSN : String := "memory"

/-- Which bootstrap step of one `Init` attempt failed. -/
inductive StepError
  | newConnectionFailed
  | openFailed
  | newPersisterFailed
  | pingFailed
  | migrateUpFailed
deriving DecidableEq, Repr

/-- The database environment one bootstrap attempt runs against: whether
`pop.NewConnection`, `c.Open()`, `sql.NewPersister`, `p.Ping()` and
`p.MigrateUp(ctx)` succeed on this attempt, and the identity of the
connection the attempt would establish. -/
structure AttemptEnv where
  newConnectionOk : Bool
  openOk : Bool
  newPersisterOk : Bool
  pingOk : Bool
  migrateUpOk : Bool
  connId : Nat
deriving DecidableEq, Repr

/-- `sql.NewPersister(m, c)`: a fresh persister over the attempt's
connection; no migration has been applied to it. -/
def newSqlPersister (env : AttemptEnv) : SqlPersister :=
  { conn := env.connId, migratedUp := false }

/-- `p.MigrateUp(ctx)`: marks the schema migrated, or fails as the
environment dictates. -/
def MigrateUp (env : AttemptEnv) (p : SqlPersister) : Except StepError SqlPersister :=
  if env.migrateUpOk then Except.ok { p with migratedUp := true }
  else Except.error StepError.migrateUpFailed

/-- One run of the closure `Init` hands to `backoff.Retry`: parse/connect,
open, construct the persister, ping, and — only when the configured DSN is
the in-memory one — run migrations; the first failing step aborts the
attempt. -/
def bootstrapAttempt (c : Config) (env : AttemptEnv) : Except StepError SqlPersister :=
  if !env.newConnectionOk then Except.error StepError.newConnectionFailed
  else if !env.openOk then Except.error StepError.openFailed
  else if !env.newPersisterOk then Except.error StepError.newPersisterFailed
  else if !env.pingOk then Except.error StepError.pingFailed
  else
    let p := newSqlPersister env
    if c.DSN = InMemoryDSN then
      match MigrateUp env p with
      | Except.error e => Except.error e
      | Except.ok p2 => Except.ok p2
    else Except.ok p

/-- cenkalti `backoff.Retry(op, bc)`: run the operation; on success stop with
its value; on failure wait out the next backoff interval and run it again,
until the backoff signals stop because its `MaxElapsedTime` has elapsed, at
which point the last error is returned.  The randomized exponential schedule
is abstracted into `fuel`, the number of retries the elapsed-time budget
still admits; `attempt` indexes the run into the environment oracle. -/
def backoffRetry {ε α : Type} (op : Nat → Except ε α) (attempt : Nat) :
    Nat → Except ε α
  | 0 => op attempt
  | f + 1 =>
    match op attempt with
    | Except.ok a => Except.ok a
    | Except.error _ => backoffRetry op (attempt + 1) f

/-- The exponential backoff `Init` configures: only its `MaxElapsedTime`
setting matters to the embedded code. -/
structure ExponentialBackOffModel where
  maxElapsedTimeSeconds : Nat
deriving DecidableEq, Repr

/-- `backoff.NewExponentialBackOff()` with `bc.MaxElapsedTime = time.Minute * 5`
as `Init` sets it. -/
def initBackOff : ExponentialBackOffModel :=
  { maxElapsedTimeSeconds := 5 * 60 }

/-- What a call to `Init` does: panic (second call), fail after the retry
budget with the last error (the registry unchanged), or succeed with the
persister installed. -/
inductive InitOutcome
  | panicked
  | failed (e : StepError) (m : RegistryDefault)
  | succeeded (m : RegistryDefault)
deriving DecidableEq, Repr

/-- `m.Init(ctx)`: panics when the persister is already set (the DSN
connection can not be hot-reloaded), otherwise retries the whole bootstrap
attempt under the exponential backoff and installs the persister built by
the first successful attempt. -/
def Init (m : RegistryDefault) (envs : Nat → AttemptEnv) (fuel : Nat) : InitOutcome :=
  match m.persister with
  | some _ => InitOutcome.panicked
  | none =>
    match backoffRetry (fun n => bootstrapAttempt m.c (envs n)) 0 fuel with
    | Except.ok p => InitOutcome.succeeded { m with persister := some p }
    | Except.error e => InitOutcome.failed e m

/-- `m.Persister()`: the raw persister field, `none` before `Init`. -/
def Persister (m : RegistryDefault) : Option SqlPersister :=
  m.persister

/-- `m.RegistrationFlowPersister()`. -/
def RegistrationFlowPersister (m : RegistryDefault) : Option SqlPersister :=
  m.persister

/-- `m.LoginFlowPersister()`. -/
def LoginFlowPersister (m : RegistryDefault) : Option SqlPersister :=
  m.persister

/-- `m.SettingsFlowPersister()`. -/
def SettingsFlowPersister (m : RegistryDefault) : Option SqlPersister :=
  m.persister

/-- `m.RecoveryFlowPersister()`. -/
def RecoveryFlowPersister (m : RegistryDefault) : Option SqlPersister :=
  m.persister

/-- `m.SessionPersister()`. -/
def SessionPersister (m : RegistryDefault) : Option SqlPersister :=
  m.persister

/-- `m.ContinuityPersister()`. -/
def ContinuityPersister (m : RegistryDefault) : Option SqlPersister :=
  m.persister

/-- `m.CourierPersister()`. -/
def CourierPersister (m : RegistryDefault) : Option SqlPersister :=
  m.persister

/-- `m.SelfServiceErrorPersister()`. -/
def SelfServiceErrorPersister (m : RegistryDefault) : Option SqlPersister :=
  m.persister

/-- `m.IdentityPool()`. -/
def IdentityPool (m : RegistryDefault) : Option SqlPersister :=
  m.persister

/-- `m.RecoveryTokenPersister()`: delegates to `m.Persister()`. -/
def RecoveryTokenPersister (m : RegistryDefault) : Option SqlPersister :=
  Persister m

/-- `m.VerificationTokenPersister()`: delegates to `m.Persister()`. -/
def VerificationTokenPersister (m : RegistryDefault) : Option SqlPersister :=
  Persister m

/-- What `m.Ping()` does: `return m.persister.Ping()` dereferences a nil
persister before `Init`, and delegates to the installed persister after. -/
inductive PingOutcome
  | nilDerefPanic
  | delegated (p : SqlPersister)
deriving DecidableEq, Repr

/-- `m.Ping()`. -/
def Ping (m : RegistryDefault) : PingOutcome :=
  match m.persister with
  | none => PingOutcome.nilDerefPanic
  | some p => PingOutcome.delegated p

/-- Retrying from attempt `s + 1` is retrying the shifted operation from
attempt `s`. -/
theorem backoffRetry_shift {ε α : Type} (op : Nat → Except ε α) :
    ∀ (f s : Nat),
      backoffRetry op (s + 1) f = backoffRetry (fun n => op (n + 1)) s f := by
  intro f
  induction f with
  | zero => intro s; rfl
  | succ f ih =>
    intro s
    cases h : op (s + 1) with
    | ok a => simp [backoffRetry, h]
    | error e => simp [backoffRetry, h, ih]

/-- If the retry loop gives up with an error, every attempt it ran failed and
the reported error is the last attempt's. -/
theorem backoffRetry_error_elim {ε α : Type} (op : Nat → Except ε α) :
    ∀ (f s : Nat) (e : ε), backoffRetry op s f = Except.error e →
      op (s + f) = Except.error e ∧
        ∀ k, k ≤ f → ∃ ek, op (s + k) = Except.error ek := by
  intro f
  induction f with
  | zero =>
    intro s e h
    refine ⟨by simpa [backoffRetry] using h, ?_⟩
    intro k hk
    have hk0 : k = 0 := Nat.le_zero.mp hk
    exact ⟨e, by simpa [backoffRetry, hk0] using h⟩
  | succ f ih =>
    intro s e h
    cases h0 : op s with
    | ok a => simp [backoffRetry, h0] at h
    | error e0 =>
      have h1 : backoffRetry op (s + 1) f = Except.error e := by
        simpa [backoffRetry, h0] using h
      obtain ⟨hlast, hall⟩ := ih (s + 1) e h1
      constructor
      · have : s + 1 + f = s + (f + 1) := by omega
        rwa [this] at hlast
      · intro k hk
        match k with
        | 0 => exact ⟨e0, by simpa using h0⟩
        | k + 1 =>
          obtain ⟨ek, hek⟩ := hall k (Nat.le_of_succ_le_succ hk)
          refine ⟨ek, ?_⟩
          have : s + 1 + k = s + (k + 1) := by omega
          rwa [this] at hek

/-- If the retry loop succeeds, some attempt within the budget succeeded with
the returned value and every earlier attempt failed. -/
theorem backoffRetry_ok_elim {ε α : Type} (op : Nat → Except ε α) :
    ∀ (f s : Nat) (a : α), backoffRetry op s f = Except.ok a →
      ∃ k, k ≤ f ∧ op (s + k) = Except.ok a ∧
        ∀ j, j < k → ∃ ej, op (s + j) = Except.error ej := by
  intro f
  induction f with
  | zero =>
    intro s a h
    exact ⟨0, Nat.le_refl 0, by simpa [backoffRetry] using h, by omega⟩
  | succ f ih =>
    intro s a h
    cases h0 : op s with
    | ok b =>
      have hb : b = a := by simpa [backoffRetry, h0] using h
      exact ⟨0, Nat.zero_le _, by simpa [hb] using h0, by omega⟩
    | error e0 =>
      have h1 : backoffRetry op (s + 1) f = Except.ok a := by
        simpa [backoffRetry, h0] using h
      obtain ⟨k, hk, hop, hprev⟩ := ih (s + 1) a h1
      refine ⟨k + 1, Nat.succ_le_succ hk, ?_, ?_⟩
      · have : s + 1 + k = s + (k + 1) := by omega
        rwa [this] at hop
      · intro j hj
        match j with
        | 0 => exact ⟨e0, by simpa using h0⟩
        | j + 1 =>
          obtain ⟨ej, hej⟩ := hprev j (Nat.lt_of_succ_lt_succ hj)
          refine ⟨ej, ?_⟩
          have : s + 1 + j = s + (j + 1) := by omega
          rwa [this] at hej

/-- A persister returned by a successful bootstrap attempt has been migrated
exactly when the configured DSN is the in-memory one. -/
theorem bootstrapAttempt_ok_migratedUp (c : Config) (env : AttemptEnv)
    (p : SqlPersister) (h : bootstrapAttempt c env = Except.ok p) :
    (p.migratedUp = true ↔ Config.DSN c = InMemoryDSN) := by
  unfold bootstrapAttempt at h
  split at h
  · exact absurd h (by simp)
  · split at h
    · exact absurd h (by simp)
    · split at h
      · exact absurd h (by simp)
      · split at h
        · exact absurd h (by simp)
        · split at h
          · rename_i hdsn
            unfold MigrateUp at h
            split at h
            · simp only [Except.ok.injEq] at h
              subst h
              simpa using hdsn
            · exact absurd h (by simp)
          · rename_i hdsn
            simp only [Except.ok.injEq] at h
            subst h
            simp [newSqlPersister, hdsn]

/-- A sample configuration pointing at the in-memory DSN. -/
def cfgMem : Config :=
  { enabledStrategies := ["password"]
    DSN := "memory"
    SecretsSession := ["secret"]
    IsInsecureDevMode := false
    SessionDomain := ""
    SessionPath := ""
    SessionSameSiteMode := 0
    SessionPersistentCookie := false
    SessionLifespanNs := 0 }

/-- A database environment where every bootstrap step succeeds. -/
def envOk : AttemptEnv :=
  { newConnectionOk := true
    openOk := true
    newPersisterOk := true
    pingOk := true
    migrateUpOk := true
    connId := 1 }

/-- The persister `Init` installs when bootstrapping `cfgMem` against
`envOk`: connection 1, migrated because the DSN is in-memory. -/
def pMem : SqlPersister :=
  { conn := 1, migratedUp := true }

/-- A fresh registry over the in-memory configuration. -/
def mMem0 : RegistryDefault :=
  NewRegistryDefault cfgMem []

/-- `mMem0` after a successful `Init` installed `pMem`. -/
def mMemInit : RegistryDefault :=
  { mMem0 with persister := some pMem }

/-- Claim C6: `CanHandle(dsn)` returns true exactly for the in-memory DSN and
for DSN strings beginning with one of the prefixes sqlite, sqlite3, mysql,
postgres, postgresql, cockroach, cockroachdb, or crdb, and returns false for
every other string. -/
theorem canHandle_dsn_characterization (dsn : String) :
    CanHandle dsn = true ↔
      (dsn = "memory"
        ∨ String.isPrefixOf "sqlite" dsn = true
        ∨ String.isPrefixOf "sqlite3" dsn = true
        ∨ String.isPrefixOf "mysql" dsn = true
        ∨ String.isPrefixOf "postgres" dsn = true
        ∨ String.isPrefixOf "postgresql" dsn = true
        ∨ String.isPrefixOf "cockroach" dsn = true
        ∨ String.isPrefixOf "cockroachdb" dsn = true
        ∨ String.isPrefixOf "crdb" dsn = true) := by
  simp only [CanHandle, Bool.or_eq_true, beq_iff_eq]
  tauto

/-- Claim C3: calling `Init` a second time after a first call has succeeded
(the persister is already set) panics rather than returning an error or
re-initializing the connection. -/
theorem Init_second_call_panics (m : RegistryDefault) (p : SqlPersister)
    (h : m.persister = some p) (envs : Nat → AttemptEnv) (fuel : Nat) :
    Init m envs fuel = InitOutcome.panicked := by
  unfold Init
  rw [h]

/-- Claim C3 witness: a registry that already went through a successful
`Init` panics on the second call. -/
theorem Init_second_call_panics_witness :
    Init mMemInit (fun _ => envOk) 3 = InitOutcome.panicked :=
  Init_second_call_panics mMemInit pMem rfl (fun _ => envOk) 3

/-- The retry discipline of `Init`: a failed first attempt restarts the whole
bootstrap sequence against the remaining budget; a non-nil error is returned
only when every attempt in the budget failed, and it is the last attempt's
error with the registry unchanged; success installs the persister built by
the first successful attempt; a success on the first attempt returns
immediately; the backoff ceiling is five minutes. -/
def InitRetrySpec (m : RegistryDefault) (envs : Nat → AttemptEnv)
    (fuel : Nat) : Prop :=
  (∀ e f, bootstrapAttempt m.c (envs 0) = Except.error e → fuel = f + 1 →
      Init m envs fuel = Init m (fun n => envs (n + 1)) f)
  ∧ (∀ e m2, Init m envs fuel = InitOutcome.failed e m2 →
      m2 = m ∧ bootstrapAttempt m.c (envs fuel) = Except.error e
        ∧ ∀ k, k ≤ fuel → ∃ ek, bootstrapAttempt m.c (envs k) = Except.error ek)
  ∧ (∀ m2, Init m envs fuel = InitOutcome.succeeded m2 →
      ∃ k p, k ≤ fuel ∧ bootstrapAttempt m.c (envs k) = Except.ok p
        ∧ (∀ j, j < k → ∃ ej, bootstrapAttempt m.c (envs j) = Except.error ej)
        ∧ m2 = { m with persister := some p })
  ∧ (∀ p, bootstrapAttempt m.c (envs 0) = Except.ok p →
      Init m envs fuel = InitOutcome.succeeded { m with persister := some p })
  ∧ initBackOff.maxElapsedTimeSeconds = 5 * 60

/-- Claim C4: `Init` retries the entire bootstrap sequence as one unit under
exponential backoff with a maximum elapsed time of 5 minutes; a failure at
any step restarts the whole sequence, only after the retry budget is
exhausted does `Init` return a non-nil error, and on success the persister
is set. -/
theorem Init_bootstrap_retry_discipline (m : RegistryDefault)
    (hm : m.persister = none) (envs : Nat → AttemptEnv) (fuel : Nat) :
    InitRetrySpec m envs fuel := by
  refine ⟨?_, ?_, ?_, ?_, rfl⟩
  · intro e f h0 hf
    subst hf
    unfold Init
    rw [hm]
    simp only
    rw [show backoffRetry (fun n => bootstrapAttempt m.c (envs n)) 0 (f + 1)
          = backoffRetry (fun n => bootstrapAttempt m.c (envs (n + 1))) 0 f by
        simp only [backoffRetry, h0]
        exact backoffRetry_shift _ f 0]
  · intro e m2 h
    unfold Init at h
    rw [hm] at h
    cases hr : backoffRetry (fun n => bootstrapAttempt m.c (envs n)) 0 fuel with
    | ok p => rw [hr] at h; simp at h
    | error e2 =>
      rw [hr] at h
      simp only [InitOutcome.failed.injEq] at h
      obtain ⟨he, hm2⟩ := h
      obtain ⟨hlast, hall⟩ := backoffRetry_error_elim _ fuel 0 e2 hr
      exact ⟨hm2.symm, by rw [← he]; simpa using hlast,
        fun k hk => by simpa using hall k hk⟩
  · intro m2 h
    unfold Init at h
    rw [hm] at h
    cases hr : backoffRetry (fun n => bootstrapAttempt m.c (envs n)) 0 fuel with
    | ok p =>
      rw [hr] at h
      simp only [InitOutcome.succeeded.injEq] at h
      obtain ⟨k, hk, hop, hprev⟩ := backoffRetry_ok_elim _ fuel 0 p hr
      exact ⟨k, p, hk, by simpa using hop,
        fun j hj => by simpa using hprev j hj, h.symm⟩
    | error e2 => rw [hr] at h; simp at h
  · intro p h0
    unfold Init
    rw [hm]
    simp only
    cases fuel with
    | zero => simp [backoffRetry, h0]
    | succ f => simp [backoffRetry, h0]

/-- Claim C4 witness: the retry discipline at a concrete fresh registry,
environment and budget. -/
theorem Init_bootstrap_retry_discipline_witness :
    InitRetrySpec mMem0 (fun _ => envOk) 2 :=
  Init_bootstrap_retry_discipline mMem0 rfl (fun _ => envOk) 2

/-- Claim C5: during `Init`, schema migration runs if and only if the
configured DSN equals the special in-memory DSN: the persister a successful
`Init` installs has been migrated exactly when the DSN is the in-memory
one, and for every other DSN no migration was performed on it. -/
theorem Init_migration_iff_inMemoryDSN (m : RegistryDefault)
    (envs : Nat → AttemptEnv) (fuel : Nat) (m2 : RegistryDefault)
    (p : SqlPersister) (h : Init m envs fuel = InitOutcome.succeeded m2)
    (hp : m2.persister = some p) :
    (p.migratedUp = true ↔ Config.DSN m.c = InMemoryDSN) := by
  unfold Init at h
  cases hper : m.persister with
  | some q => rw [hper] at h; simp at h
  | none =>
    rw [hper] at h
    cases hr : backoffRetry (fun n => bootstrapAttempt m.c (envs n)) 0 fuel with
    | error e => rw [hr] at h; simp at h
    | ok q =>
      rw [hr] at h
      simp only [InitOutcome.succeeded.injEq] at h
      obtain ⟨k, hk, hop, -⟩ := backoffRetry_ok_elim _ fuel 0 q hr
      have hq : q = p := by
        rw [← h] at hp
        simpa using hp
      subst hq
      exact bootstrapAttempt_ok_migratedUp m.c (envs k) q (by simpa using hop)

/-- Claim C5 witness: bootstrapping the in-memory configuration yields a
migrated persister, and indeed the configured DSN is the in-memory one. -/
theorem Init_migration_iff_inMemoryDSN_witness :
    (SqlPersister.migratedUp pMem = true ↔ Config.DSN (RegistryDefault.c mMem0) = InMemoryDSN) :=
  Init_migration_iff_inMemoryDSN mMem0 (fun _ => envOk) 0 mMemInit pMem (by decide) rfl

/-- The password strategy as the dispatcher sees it: implements the
registration and login capabilities. -/
def pwStrategy : Strategy :=
  { id := "password", hasRegistration := true, hasLogin := true
    hasVerification := false }

/-- The recovery-link strategy as the dispatcher sees it: implements the
verification capability. -/
def linkStrategy : Strategy :=
  { id := "link", hasRegistration := false, hasLogin := false
    hasVerification := true }

/-- A configuration with the password mechanism enabled. -/
def cfgPwOn : Config :=
  { cfgMem with enabledStrategies := ["password"] }

/-- The same configuration after the operator disables every mechanism. -/
def cfgAllOff : Config :=
  { cfgMem with enabledStrategies := [] }

/-- A registry registered with the password strategy, password enabled. -/
def mStrat0 : RegistryDefault :=
  NewRegistryDefault cfgPwOn [pwStrategy]

/-- `mStrat0` after one call to each of `RegistrationStrategies` and
`LoginStrategies` has filled both memoized sets. -/
def mStrat1 : RegistryDefault :=
  (LoginStrategies (RegistrationStrategies mStrat0).snd).snd

/-- `mStrat1` after the operator disables the password mechanism in
configuration (no restart: the memoized sets are untouched). -/
def mStrat2 : RegistryDefault :=
  { mStrat1 with c := cfgAllOff }

/-- Claim C1 counterexample: with the password mechanism disabled in the
current configuration, the next calls to `RegistrationStrategies` and
`LoginStrategies` still return the password strategy, because the sets
memoized while it was enabled are returned unchanged. -/
theorem strategySets_stale_after_disable_cex :
    (RegistrationStrategies mStrat2).fst = [pwStrategy]
    ∧ (LoginStrategies mStrat2).fst = [pwStrategy]
    ∧ (Config.SelfServiceStrategy mStrat2.c pwStrategy.id).Enabled = false := by
  decide

/-- Claim C1 (amended): a call to `RegistrationStrategies` or
`LoginStrategies` re-evaluates enablement against the current configuration
only while the memoized set is empty (so after every mechanism was disabled,
re-enabling one takes effect on the next call); once a call has produced a
non-empty set it is memoized permanently, and disabling a mechanism in
configuration afterwards does not remove it from the set returned by later
calls — that would need a restart. -/
theorem strategySets_memoized_once_nonempty (m : RegistryDefault) (c2 : Config) :
    (m.registrationStrategies = [] →
      (RegistrationStrategies m).fst = m.selfserviceStrategies.filter fun s =>
        s.hasRegistration && (Config.SelfServiceStrategy m.c s.id).Enabled)
    ∧ (m.registrationStrategies ≠ [] →
      (RegistrationStrategies { m with c := c2 }).fst = m.registrationStrategies)
    ∧ (m.loginStrategies = [] →
      (LoginStrategies m).fst = m.selfserviceStrategies.filter fun s =>
        s.hasLogin && (Config.SelfServiceStrategy m.c s.id).Enabled)
    ∧ (m.loginStrategies ≠ [] →
      (LoginStrategies { m with c := c2 }).fst = m.loginStrategies) := by
  refine ⟨?_, ?_, ?_, ?_⟩
  · intro h
    simp [RegistrationStrategies, h, selfServiceStrategies]
  · intro h
    cases hl : m.registrationStrategies with
    | nil => exact absurd hl h
    | cons a l => simp [RegistrationStrategies, hl]
  · intro h
    simp [LoginStrategies, h, selfServiceStrategies]
  · intro h
    cases hl : m.loginStrategies with
    | nil => exact absurd hl h
    | cons a l => simp [LoginStrategies, hl]

/-- A registry registered with the recovery-link strategy while every
mechanism, the link mechanism included, is disabled in configuration. -/
def mVer0 : RegistryDefault :=
  NewRegistryDefault cfgAllOff [linkStrategy]

/-- Claim C2 counterexample: the link strategy implements the verification
capability but is administratively disabled, yet `VerificationStrategies`
returns it: the verification getter never consults enablement. -/
theorem verificationStrategies_ignore_enablement_cex :
    (VerificationStrategies mVer0).fst = [linkStrategy]
    ∧ (Config.SelfServiceStrategy mVer0.c linkStrategy.id).Enabled = false := by
  decide

/-- Claim C2 (amended): on first (empty-memo) evaluation, the registration
and login strategy sets contain exactly the registered strategies that both
implement the capability and are administratively enabled; the verification
set contains exactly the registered strategies that implement the
verification capability, with no enablement check, so a disabled
verification-capable strategy is still included. -/
theorem strategySets_filter_capability_enablement (c : Config) (ss : List Strategy) :
    (RegistrationStrategies (NewRegistryDefault c ss)).fst
      = ss.filter (fun s => s.hasRegistration && (Config.SelfServiceStrategy c s.id).Enabled)
    ∧ (LoginStrategies (NewRegistryDefault c ss)).fst
      = ss.filter (fun s => s.hasLogin && (Config.SelfServiceStrategy c s.id).Enabled)
    ∧ (VerificationStrategies (NewRegistryDefault c ss)).fst
      = ss.filter (fun s => s.hasVerification) := by
  refine ⟨?_, ?_, ?_⟩ <;>
    simp [RegistrationStrategies, LoginStrategies, VerificationStrategies,
      NewRegistryDefault, selfServiceStrategies]

/-- Claim C7: the session cookie store built by `CookieManager` has max-age 0
when persistent session cookies are disabled and max-age equal to the
configured lifespan in whole seconds when enabled; it is HTTP-only, secure
exactly when dev mode is off, and domain, path and same-site keep the
library defaults unless configured non-empty/non-zero. -/
theorem cookieManager_store_options (c : Config) (ss : List Strategy) :
    ((CookieManager (NewRegistryDefault c ss)).fst.options.maxAge
      = (if c.SessionPersistentCookie then Config.SessionLifespanSeconds c else 0))
    ∧ (CookieManager (NewRegistryDefault c ss)).fst.options.httpOnly = true
    ∧ (CookieManager (NewRegistryDefault c ss)).fst.options.secure
      = (!c.IsInsecureDevMode)
    ∧ ((CookieManager (NewRegistryDefault c ss)).fst.options.domain
      = (if c.SessionDomain ≠ "" then c.SessionDomain else ""))
    ∧ ((CookieManager (NewRegistryDefault c ss)).fst.options.path
      = (if c.SessionPath ≠ "" then c.SessionPath else "/"))
    ∧ ((CookieManager (NewRegistryDefault c ss)).fst.options.sameSite
      = (if c.SessionSameSiteMode ≠ 0 then c.SessionSameSiteMode else 0)) := by
  have hfst : (CookieManager (NewRegistryDefault c ss)).fst = buildSessionsStore c := rfl
  rw [hfst]
  unfold buildSessionsStore NewCookieStore
  refine ⟨?_, ?_, ?_, ?_, ?_, ?_⟩ <;> split_ifs <;> simp_all

/-- Claim C8 counterexample: the store `ContinuityCookieManager` returns is
not a session cookie store: no explicit max-age is assigned, so it keeps the
cookie library's default max-age of thirty days rather than 0. -/
theorem continuityStore_not_session_cookie_cex :
    (ContinuityCookieManager mMem0).options.maxAge = 86400 * 30
    ∧ ((86400 * 30 : Int) = 0 → False) := by
  decide

/-- Claim C8 (amended): the continuity cookie store returned by
`ContinuityCookieManager` is configured same-site-lax, HTTP-only, secure
exactly when dev mode is off, and no explicit max-age is assigned, so it
keeps the cookie library's default max-age of thirty days (it is not a
session-cookie store). -/
theorem continuityCookieManager_store_options (m : RegistryDefault) :
    (ContinuityCookieManager m).options.sameSite = SameSiteLaxMode
    ∧ (ContinuityCookieManager m).options.httpOnly = true
    ∧ (ContinuityCookieManager m).options.secure = (!m.c.IsInsecureDevMode)
    ∧ (ContinuityCookieManager m).options.maxAge = 86400 * 30
    ∧ (ContinuityCookieManager m).keyPairs = m.c.SecretsSession := by
  exact ⟨rfl, rfl, rfl, rfl, rfl⟩

/-- A second call to `CookieManager` returns the memoized store and leaves
the state unchanged. -/
theorem cookieManager_idem (m : RegistryDefault) :
    (CookieManager (CookieManager m).snd).fst = (CookieManager m).fst
    ∧ (CookieManager (CookieManager m).snd).snd = (CookieManager m).snd := by
  cases h : m.sessionsStore <;> simp [CookieManager, h]

/-- After its first construction the session cookie store is fixed: a
configuration change before the next call does not alter what is returned. -/
theorem cookieManager_fixed_after_build (m : RegistryDefault) (c2 : Config) :
    (CookieManager { (CookieManager m).snd with c := c2 }).fst
      = (CookieManager m).fst := by
  cases h : m.sessionsStore <;> simp [CookieManager, h]

/-- A second call to `SessionManager` returns the memoized manager and leaves
the state unchanged. -/
theorem sessionManager_idem (m : RegistryDefault) :
    (SessionManager (SessionManager m).snd).fst = (SessionManager m).fst
    ∧ (SessionManager (SessionManager m).snd).snd = (SessionManager m).snd := by
  cases h : m.sessionManager <;> simp [SessionManager, h]

/-- A second call to `ContinuityManager` returns the memoized manager and
leaves the state unchanged. -/
theorem continuityManager_idem (m : RegistryDefault) :
    (ContinuityManager (ContinuityManager m).snd).fst = (ContinuityManager m).fst
    ∧ (ContinuityManager (ContinuityManager m).snd).snd = (ContinuityManager m).snd := by
  cases h : m.continuityManager <;> simp [ContinuityManager, h]

/-- A second call to `LogoutHandler` returns the memoized handler and leaves
the state unchanged. -/
theorem logoutHandler_idem (m : RegistryDefault) :
    (LogoutHandler (LogoutHandler m).snd).fst = (LogoutHandler m).fst
    ∧ (LogoutHandler (LogoutHandler m).snd).snd = (LogoutHandler m).snd := by
  cases h : m.selfserviceLogoutHandler <;> simp [LogoutHandler, h]

/-- A second call to `Courier` returns the memoized courier and leaves the
state unchanged. -/
theorem courier_idem (m : RegistryDefault) :
    (Courier (Courier m).snd).fst = (Courier m).fst
    ∧ (Courier (Courier m).snd).snd = (Courier m).snd := by
  cases h : m.courier <;> simp [Courier, h]

/-- A second call to `RegistrationStrategies` returns the same set and leaves
the state unchanged. -/
theorem registrationStrategies_idem (m : RegistryDefault) :
    (RegistrationStrategies (RegistrationStrategies m).snd).fst
      = (RegistrationStrategies m).fst
    ∧ (RegistrationStrategies (RegistrationStrategies m).snd).snd
      = (RegistrationStrategies m).snd := by
  cases hl : m.registrationStrategies with
  | cons a l => simp [RegistrationStrategies, hl]
  | nil =>
    cases hb : m.selfserviceStrategies.filter
        (fun s => s.hasRegistration && (Config.SelfServiceStrategy m.c s.id).Enabled) with
    | nil => simp [RegistrationStrategies, selfServiceStrategies, hl, hb]
    | cons a l => simp [RegistrationStrategies, selfServiceStrategies, hl, hb]

/-- A second call to `LoginStrategies` returns the same set and leaves the
state unchanged. -/
theorem loginStrategies_idem (m : RegistryDefault) :
    (LoginStrategies (LoginStrategies m).snd).fst = (LoginStrategies m).fst
    ∧ (LoginStrategies (LoginStrategies m).snd).snd = (LoginStrategies m).snd := by
  cases hl : m.loginStrategies with
  | cons a l => simp [LoginStrategies, hl]
  | nil =>
    cases hb : m.selfserviceStrategies.filter
        (fun s => s.hasLogin && (Config.SelfServiceStrategy m.c s.id).Enabled) with
    | nil => simp [LoginStrategies, selfServiceStrategies, hl, hb]
    | cons a l => simp [LoginStrategies, selfServiceStrategies, hl, hb]

/-- A second call to `VerificationStrategies` returns the same set and leaves
the state unchanged. -/
theorem verificationStrategies_idem (m : RegistryDefault) :
    (VerificationStrategies (VerificationStrategies m).snd).fst
      = (VerificationStrategies m).fst
    ∧ (VerificationStrategies (VerificationStrategies m).snd).snd
      = (VerificationStrategies m).snd := by
  cases hl : m.verificationStrategies with
  | cons a l => simp [VerificationStrategies, hl]
  | nil =>
    cases hb : m.selfserviceStrategies.filter (fun s => s.hasVerification) with
    | nil => simp [VerificationStrategies, selfServiceStrategies, hl, hb]
    | cons a l => simp [VerificationStrategies, selfServiceStrategies, hl, hb]

/-- Claim C9: the lazily-constructed registry getters are idempotent —
repeated calls return the identical memoized component and leave the state
unchanged — and the session cookie store is fixed after first construction
even across configuration changes; the single exception is
`ContinuityCookieManager`, which builds a fresh store from the current
configuration on every call, so secret and dev-mode changes take effect
per request. -/
theorem registryGetters_memoization (m : RegistryDefault) (c2 : Config) :
    ((CookieManager (CookieManager m).snd).fst = (CookieManager m).fst
      ∧ (CookieManager (CookieManager m).snd).snd = (CookieManager m).snd)
    ∧ (CookieManager { (CookieManager m).snd with c := c2 }).fst
      = (CookieManager m).fst
    ∧ ((SessionManager (SessionManager m).snd).fst = (SessionManager m).fst
      ∧ (SessionManager (SessionManager m).snd).snd = (SessionManager m).snd)
    ∧ ((ContinuityManager (ContinuityManager m).snd).fst = (ContinuityManager m).fst
      ∧ (ContinuityManager (ContinuityManager m).snd).snd = (ContinuityManager m).snd)
    ∧ ((LogoutHandler (LogoutHandler m).snd).fst = (LogoutHandler m).fst
      ∧ (LogoutHandler (LogoutHandler m).snd).snd = (LogoutHandler m).snd)
    ∧ ((Courier (Courier m).snd).fst = (Courier m).fst
      ∧ (Courier (Courier m).snd).snd = (Courier m).snd)
    ∧ ((RegistrationStrategies (RegistrationStrategies m).snd).fst
        = (RegistrationStrategies m).fst
      ∧ (RegistrationStrategies (RegistrationStrategies m).snd).snd
        = (RegistrationStrategies m).snd)
    ∧ ((LoginStrategies (LoginStrategies m).snd).fst = (LoginStrategies m).fst
      ∧ (LoginStrategies (LoginStrategies m).snd).snd = (LoginStrategies m).snd)
    ∧ ((VerificationStrategies (VerificationStrategies m).snd).fst
        = (VerificationStrategies m).fst
      ∧ (VerificationStrategies (VerificationStrategies m).snd).snd
        = (VerificationStrategies m).snd)
    ∧ ((ContinuityCookieManager { m with c := c2 }).keyPairs = c2.SecretsSession
      ∧ (ContinuityCookieManager { m with c := c2 }).options.secure
        = (!c2.IsInsecureDevMode)) :=
  ⟨cookieManager_idem m, cookieManager_fixed_after_build m c2,
    sessionManager_idem m, continuityManager_idem m, logoutHandler_idem m,
    courier_idem m, registrationStrategies_idem m, loginStrategies_idem m,
    verificationStrategies_idem m, rfl, rfl⟩

/-- Before `Init`, the persister field is nil: every persister getter returns
nil and `Ping` dereferences the nil persister. -/
def NilPersisterSpec (m : RegistryDefault) : Prop :=
  Persister m = none
  ∧ RegistrationFlowPersister m = none
  ∧ LoginFlowPersister m = none
  ∧ SettingsFlowPersister m = none
  ∧ RecoveryFlowPersister m = none
  ∧ SessionPersister m = none
  ∧ ContinuityPersister m = none
  ∧ CourierPersister m = none
  ∧ SelfServiceErrorPersister m = none
  ∧ IdentityPool m = none
  ∧ RecoveryTokenPersister m = none
  ∧ VerificationTokenPersister m = none
  ∧ Ping m = PingOutcome.nilDerefPanic

/-- After `Init` installed persister `p`, every persister getter returns `p`
and `Ping` delegates to it. -/
def InstalledPersisterSpec (m : RegistryDefault) (p : SqlPersister) : Prop :=
  Persister m = some p
  ∧ RegistrationFlowPersister m = some p
  ∧ LoginFlowPersister m = some p
  ∧ SettingsFlowPersister m = some p
  ∧ RecoveryFlowPersister m = some p
  ∧ SessionPersister m = some p
  ∧ ContinuityPersister m = some p
  ∧ CourierPersister m = some p
  ∧ SelfServiceErrorPersister m = some p
  ∧ IdentityPool m = some p
  ∧ RecoveryTokenPersister m = some p
  ∧ VerificationTokenPersister m = some p
  ∧ Ping m = PingOutcome.delegated p

/-- Every persister getter reads the single persister field; `Ping`
delegates to it when it is set. -/
theorem installedPersisterSpec_of_some (m : RegistryDefault) (p : SqlPersister)
    (h : m.persister = some p) : InstalledPersisterSpec m p := by
  refine ⟨?_, ?_, ?_, ?_, ?_, ?_, ?_, ?_, ?_, ?_, ?_, ?_, ?_⟩ <;>
    simp [Persister, RegistrationFlowPersister, LoginFlowPersister,
      SettingsFlowPersister, RecoveryFlowPersister, SessionPersister,
      ContinuityPersister, CourierPersister, SelfServiceErrorPersister,
      IdentityPool, RecoveryTokenPersister, VerificationTokenPersister,
      Ping, h]

/-- Claim C10: on a fresh registry the persister is nil — `Persister()` and
every per-flow persister getter return nil and `Ping` dereferences the nil
persister — and once `Init` has returned successfully, all of them return
the single persister `Init` constructed and `Ping` delegates to it. -/
theorem persister_nil_then_installed (c : Config) (ss : List Strategy)
    (m m2 : RegistryDefault) (envs : Nat → AttemptEnv) (fuel : Nat)
    (h : Init m envs fuel = InitOutcome.succeeded m2) :
    NilPersisterSpec (NewRegistryDefault c ss)
    ∧ ∃ p, m2.persister = some p ∧ InstalledPersisterSpec m2 p := by
  constructor
  · exact ⟨rfl, rfl, rfl, rfl, rfl, rfl, rfl, rfl, rfl, rfl, rfl, rfl, rfl⟩
  · unfold Init at h
    cases hper : m.persister with
    | some q => rw [hper] at h; simp at h
    | none =>
      rw [hper] at h
      cases hr : backoffRetry (fun n => bootstrapAttempt m.c (envs n)) 0 fuel with
      | error e => rw [hr] at h; simp at h
      | ok p =>
        rw [hr] at h
        simp only [InitOutcome.succeeded.injEq] at h
        have hp : m2.persister = some p := by rw [← h]
        exact ⟨p, hp, installedPersisterSpec_of_some m2 p hp⟩

/-- Claim C10 witness: the nil/installed persister contract at the concrete
in-memory bootstrap. -/
theorem persister_nil_then_installed_witness :
    NilPersisterSpec (NewRegistryDefault cfgMem [])
    ∧ ∃ p, mMemInit.persister = some p ∧ InstalledPersisterSpec mMemInit p :=
  persister_nil_then_installed cfgMem [] mMem0 mMemInit (fun _ => envOk) 0 (by decide)

end Kratos
